import Mathlib

/-!
Verification development for the `muacode` storefront server (Express/Mongoose).

The embedding below translates the data model (`src/models/Order.js`,
`src/models/SourceCode.js`) and the request handlers of the main server file
into pure Lean functions.  Conventions of the translation:

* Mongoose `Date` values are modelled as `Nat` timestamps.
* Nullable / possibly-absent JS values are modelled as `Option`.
* JavaScript truthiness tests (`!x`, `x || y`) are translated explicitly:
  a number is falsy when it is `0` or absent, a string is falsy when it is
  empty or absent (`jsTruthyNat`, `jsOrStr`, `jsStrOrNull`).
* `crypto.createHmac('sha256', KEY).update(msg).digest('hex')` is modelled by
  an abstract parameter `hmacE : String → Except Unit String`: `.ok h` is the
  hex digest, `.error ()` models the call throwing (e.g. a missing key), which
  the success handler catches.
* Each handler becomes a function from its request data and the relevant
  database lookup results to a response value together with the saved
  (post-request) state of the documents it touches.
-/

/-- `status` field of an order: mongoose `enum: ['PENDING', 'PAID']`. -/
inductive Status where
  | PENDING
  | PAID
deriving DecidableEq, Repr

/-- Embedded activation sub-record (`ActivationSchema` in `Order.js`). -/
structure Activation where
  isActivated : Bool
  activatedAt : Option Nat
  deviceId : Option String
  ip : Option String
deriving DecidableEq, Repr

/-- Mongoose default for the activation sub-record: `default: () => ({})`
with `isActivated` defaulting to `false` and the other fields unset. -/
def Activation.deflt : Activation :=
  { isActivated := false, activatedAt := none, deviceId := none, ip := none }

/-- An order document (`OrderSchema` in `Order.js`).  `code` is the ObjectId
reference to the catalog item, `id` the document's own `_id`.  `activation`
is an `Option` because `POST /api/admin/reset-activation` sets it to `null`. -/
structure Order where
  id : Nat
  buyerName : Option String
  buyerEmail : Option String
  code : Nat
  amount : Nat
  orderCode : Nat
  status : Status
  paymentLinkId : Option String
  checkoutUrl : Option String
  reference : Option String
  paidAt : Option Nat
  activation : Option Activation
deriving DecidableEq, Repr

/-- A catalog item (`SourceCodeSchema` in `SourceCode.js`). -/
structure SourceCode where
  id : Nat
  title : String
  imageUrl : Option String
  description : Option String
  driveLink : String
  priceVND : Nat
deriving DecidableEq, Repr

/-- JS truthiness of a (possibly absent) number: `!x` is taken when `x` is
absent or `0`. -/
def jsTruthyNat : Option Nat → Bool
  | none => false
  | some n => n != 0

/-- JS truthiness of a (possibly absent) string: absent and `""` are falsy. -/
def jsTruthyStr : Option String → Bool
  | none => false
  | some s => s != ""

/-- JS `x || d` on a possibly-absent string against a string default. -/
def jsOrStr : Option String → String → String
  | none, d => d
  | some s, d => if s = "" then d else s

/-- JS `x || null` on a possibly-absent string (used for `deviceId || null`). -/
def jsStrOrNull : Option String → Option String
  | none => none
  | some s => if s = "" then none else some s

/-- JS template interpolation of a possibly-absent string: an `undefined`
query parameter prints as the literal string `undefined`. -/
def jsShow : Option String → String
  | none => "undefined"
  | some s => s

/-- Reading a field through optional chaining `order.activation?.…`:
a `null` activation behaves like the all-default record. -/
def actView : Option Activation → Activation
  | none => Activation.deflt
  | some a => a

/-- Query parameters destructured by the success handler:
`const { status, orderCode, sig } = req.query` (the handler never reads
`orderCode` again). -/
structure SuccessQuery where
  status : Option String
  orderCode : Option String
  sig : Option String
deriving DecidableEq, Repr

/-- What `GET /order/:id/success` sends back: a 404, or the rendered
`order_status` page built from the persisted order. -/
inductive SuccessPage where
  | notFound
  | orderStatus (o : Order) (ok : Bool)
deriving DecidableEq, Repr

/-- The HMAC input string used by the success handler:
`` `${order.orderCode}:${status}` `` with `status` taken from the query. -/
def sigMessage (o : Order) (qstatus : Option String) : String :=
  toString o.orderCode ++ ":" ++ jsShow qstatus

/-- `GET /order/:id/success` (server file, lines 127-150).  `ord?` is the
result of `Order.findById`; `hmacE` models the HMAC computation, which may
throw; `now` is the current time.  Returns the rendered page and the saved
state of the order. -/
def successHandler (hmacE : String → Except Unit String)
    (ord? : Option Order) (q : SuccessQuery) (now : Nat) :
    SuccessPage × Option Order :=
  match ord? with
  | none => (SuccessPage.notFound, none)
  | some o =>
    let o' : Order :=
      match hmacE (sigMessage o q.status) with
      | Except.error _ => o
      | Except.ok expected =>
        if q.status = some "PAID" ∧ q.sig = some expected then
          { o with status := Status.PAID, paidAt := some now }
        else o
    (SuccessPage.orderStatus o' true, some o')

/-- `POST /admin/orders/:id/mark-paid` (lines 227-233):
`findByIdAndUpdate` setting `status: 'PAID', paidAt: new Date()`;
a missing order is silently ignored. -/
def markPaid (ord? : Option Order) (now : Nat) : Option Order :=
  ord?.map fun o => { o with status := Status.PAID, paidAt := some now }

/-- C1: on the return trip, the order is transitioned to PAID with `paidAt`
stamped exactly when the query status is `"PAID"` and the query `sig` equals
the hex HMAC of `orderCode:status` under the checksum secret; on any other
query, and whenever the HMAC computation throws, the order is left unchanged
— and in every case the page renders from the persisted order state instead
of failing the request. -/
theorem successHandler_paid_iff_sig
    (hmacE : String → Except Unit String) (o : Order) (q : SuccessQuery)
    (now : Nat) :
    (∀ e, hmacE (sigMessage o q.status) = Except.ok e →
      successHandler hmacE (some o) q now =
        (if q.status = some "PAID" ∧ q.sig = some e then
          (SuccessPage.orderStatus
              { o with status := Status.PAID, paidAt := some now } true,
            some { o with status := Status.PAID, paidAt := some now })
        else (SuccessPage.orderStatus o true, some o))) ∧
    (hmacE (sigMessage o q.status) = Except.error () →
      successHandler hmacE (some o) q now =
        (SuccessPage.orderStatus o true, some o)) := by
  constructor
  · intro e he
    simp only [successHandler, he]
    by_cases h : q.status = some "PAID" ∧ q.sig = some e
    · simp [h]
    · simp [h]
  · intro he
    simp [successHandler, he]

/-- Concrete instances of `successHandler_paid_iff_sig`: a valid signature
flips a PENDING order to PAID with `paidAt` stamped, a wrong signature leaves
it unchanged, and a throwing HMAC leaves it unchanged. -/
theorem successHandler_paid_iff_sig_witness :
    (successHandler (fun m => Except.ok ("h:" ++ m))
        (some { id := 1, buyerName := none, buyerEmail := none, code := 0,
                amount := 5, orderCode := 42, status := Status.PENDING,
                paymentLinkId := none, checkoutUrl := none, reference := none,
                paidAt := none, activation := some Activation.deflt })
        { status := some "PAID", orderCode := some "42",
          sig := some "h:42:PAID" } 9 =
      (SuccessPage.orderStatus
          { id := 1, buyerName := none, buyerEmail := none, code := 0,
            amount := 5, orderCode := 42, status := Status.PAID,
            paymentLinkId := none, checkoutUrl := none, reference := none,
            paidAt := some 9, activation := some Activation.deflt } true,
        some { id := 1, buyerName := none, buyerEmail := none, code := 0,
               amount := 5, orderCode := 42, status := Status.PAID,
               paymentLinkId := none, checkoutUrl := none, reference := none,
               paidAt := some 9, activation := some Activation.deflt })) ∧
    (successHandler (fun m => Except.ok ("h:" ++ m))
        (some { id := 1, buyerName := none, buyerEmail := none, code := 0,
                amount := 5, orderCode := 42, status := Status.PENDING,
                paymentLinkId := none, checkoutUrl := none, reference := none,
                paidAt := none, activation := some Activation.deflt })
        { status := some "PAID", orderCode := some "42", sig := some "bad" }
        9 =
      (SuccessPage.orderStatus
          { id := 1, buyerName := none, buyerEmail := none, code := 0,
            amount := 5, orderCode := 42, status := Status.PENDING,
            paymentLinkId := none, checkoutUrl := none, reference := none,
            paidAt := none, activation := some Activation.deflt } true,
        some { id := 1, buyerName := none, buyerEmail := none, code := 0,
               amount := 5, orderCode := 42, status := Status.PENDING,
               paymentLinkId := none, checkoutUrl := none, reference := none,
               paidAt := none, activation := some Activation.deflt })) ∧
    (successHandler (fun _ => Except.error ())
        (some { id := 1, buyerName := none, buyerEmail := none, code := 0,
                amount := 5, orderCode := 42, status := Status.PENDING,
                paymentLinkId := none, checkoutUrl := none, reference := none,
                paidAt := none, activation := some Activation.deflt })
        { status := some "PAID", orderCode := some "42",
          sig := some "h:42:PAID" } 9 =
      (SuccessPage.orderStatus
          { id := 1, buyerName := none, buyerEmail := none, code := 0,
            amount := 5, orderCode := 42, status := Status.PENDING,
            paymentLinkId := none, checkoutUrl := none, reference := none,
            paidAt := none, activation := some Activation.deflt } true,
        some { id := 1, buyerName := none, buyerEmail := none, code := 0,
               amount := 5, orderCode := 42, status := Status.PENDING,
               paymentLinkId := none, checkoutUrl := none, reference := none,
               paidAt := none, activation := some Activation.deflt })) := by
  refine ⟨?_, ?_, ?_⟩
  · have h := (successHandler_paid_iff_sig (fun m => Except.ok ("h:" ++ m))
      { id := 1, buyerName := none, buyerEmail := none, code := 0,
        amount := 5, orderCode := 42, status := Status.PENDING,
        paymentLinkId := none, checkoutUrl := none, reference := none,
        paidAt := none, activation := some Activation.deflt }
      { status := some "PAID", orderCode := some "42",
        sig := some "h:42:PAID" } 9).1 "h:42:PAID" (by rfl)
    rw [h]; decide
  · have h := (successHandler_paid_iff_sig (fun m => Except.ok ("h:" ++ m))
      { id := 1, buyerName := none, buyerEmail := none, code := 0,
        amount := 5, orderCode := 42, status := Status.PENDING,
        paymentLinkId := none, checkoutUrl := none, reference := none,
        paidAt := none, activation := some Activation.deflt }
      { status := some "PAID", orderCode := some "42", sig := some "bad" }
      9).1 "h:42:PAID" (by rfl)
    rw [h]; decide
  · have h := (successHandler_paid_iff_sig (fun _ => Except.error ())
      { id := 1, buyerName := none, buyerEmail := none, code := 0,
        amount := 5, orderCode := 42, status := Status.PENDING,
        paymentLinkId := none, checkoutUrl := none, reference := none,
        paidAt := none, activation := some Activation.deflt }
      { status := some "PAID", orderCode := some "42",
        sig := some "h:42:PAID" } 9).2 (by rfl)
    rw [h]

/-- C2: the outcome of the success handler does not depend on the `orderCode`
query parameter — the HMAC is recomputed over the stored record's
`orderCode`, never the query string's — so two requests on the same stored
order that differ only in the query `orderCode` produce the same saved order
state and the same page. -/
theorem successHandler_ignores_query_orderCode
    (hmacE : String → Except Unit String) (ord? : Option Order)
    (q1 q2 : SuccessQuery) (now : Nat)
    (hs : q1.status = q2.status) (hg : q1.sig = q2.sig) :
    successHandler hmacE ord? q1 now = successHandler hmacE ord? q2 now := by
  obtain ⟨s1, c1, g1⟩ := q1
  obtain ⟨s2, c2, g2⟩ := q2
  simp only at hs hg
  subst hs hg
  rfl

/-- Concrete instance of `successHandler_ignores_query_orderCode`: swapping
the `orderCode` query value for a different order's code changes nothing. -/
theorem successHandler_ignores_query_orderCode_witness :
    successHandler (fun m => Except.ok ("h:" ++ m))
      (some { id := 1, buyerName := none, buyerEmail := none, code := 0,
              amount := 5, orderCode := 42, status := Status.PENDING,
              paymentLinkId := none, checkoutUrl := none, reference := none,
              paidAt := none, activation := some Activation.deflt })
      { status := some "PAID", orderCode := some "42",
        sig := some "h:43:PAID" } 9 =
    successHandler (fun m => Except.ok ("h:" ++ m))
      (some { id := 1, buyerName := none, buyerEmail := none, code := 0,
              amount := 5, orderCode := 42, status := Status.PENDING,
              paymentLinkId := none, checkoutUrl := none, reference := none,
              paidAt := none, activation := some Activation.deflt })
      { status := some "PAID", orderCode := some "43",
        sig := some "h:43:PAID" } 9 :=
  successHandler_ignores_query_orderCode (fun m => Except.ok ("h:" ++ m))
    (some { id := 1, buyerName := none, buyerEmail := none, code := 0,
            amount := 5, orderCode := 42, status := Status.PENDING,
            paymentLinkId := none, checkoutUrl := none, reference := none,
            paidAt := none, activation := some Activation.deflt })
    { status := some "PAID", orderCode := some "42", sig := some "h:43:PAID" }
    { status := some "PAID", orderCode := some "43", sig := some "h:43:PAID" }
    9 rfl rfl

/-- Request body of `POST /api/activate`:
`const { orderCode, deviceId } = req.body || {}`. -/
structure ActBody where
  orderCode : Option Nat
  deviceId : Option String
deriving DecidableEq, Repr

/-- Responses of `POST /api/activate`. -/
inductive ActResp where
  | badRequest
  | notFound
  | notPaid
  | conflict (activatedAt : Option Nat) (deviceId : Option String)
  | ok (orderId : Nat) (orderCode : Nat) (deviceId : Option String)
      (activatedAt : Nat) (driveLink : Option String)
deriving DecidableEq, Repr

/-- HTTP status code attached to each activate response by the handler. -/
def ActResp.code : ActResp → Nat
  | ActResp.badRequest => 400
  | ActResp.notFound => 404
  | ActResp.notPaid => 400
  | ActResp.conflict _ _ => 409
  | ActResp.ok _ _ _ _ _ => 200

/-- The IP recorded at activation:
`(ipHeader || req.socket?.remoteAddress || req.ip || '').toString()`
(`ipHeader` is the `x-forwarded-for` header; Node delivers it as a single
string, so the `Array.isArray` branch never fires). -/
def ipOf (xff remote reqIp : Option String) : String :=
  jsOrStr xff (jsOrStr remote (jsOrStr reqIp ""))

/-- `order.code?.driveLink || null`: the drive link of the populated catalog
item, or `null` when the item no longer exists (or its link is falsy). -/
def drvOf : Option SourceCode → Option String
  | none => none
  | some c => if c.driveLink = "" then none else some c.driveLink

/-- `POST /api/activate` (server file, lines 257-312).  `ord?` is the result
of `Order.findOne({ orderCode })`, `item` the populated catalog item,
`xff`/`remote`/`reqIp` the `x-forwarded-for` header, socket remote address
and `req.ip`, `now` the current time.  Returns the response and the saved
state of the order. -/
def activate (body : ActBody) (ord? : Option Order) (item : Option SourceCode)
    (xff remote reqIp : Option String) (now : Nat) : ActResp × Option Order :=
  if ¬ jsTruthyNat body.orderCode then (ActResp.badRequest, ord?)
  else
    match ord? with
    | none => (ActResp.notFound, none)
    | some o =>
      if o.status ≠ Status.PAID then (ActResp.notPaid, some o)
      else if (actView o.activation).isActivated then
        (ActResp.conflict (actView o.activation).activatedAt
          (actView o.activation).deviceId, some o)
      else
        let newAct : Activation :=
          { isActivated := true, activatedAt := some now,
            deviceId := jsStrOrNull body.deviceId,
            ip := some (ipOf xff remote reqIp) }
        (ActResp.ok o.id o.orderCode newAct.deviceId now (drvOf item),
          some { o with activation := some newAct })

/-- C3: case analysis of `POST /api/activate`.  A missing `orderCode` yields
BadRequest (400); an unknown `orderCode` yields NotFound (404); a non-PAID
order yields NotPaid; an already-activated order yields AlreadyActivated
(409) carrying the existing `activatedAt` and `deviceId` and mutates nothing;
otherwise the handler sets `isActivated := true`, `activatedAt := now`,
`deviceId` to the given value or null, `ip` from the `x-forwarded-for`
header when (non-trivially) present else the connection address, persists,
and returns the catalog item's `driveLink` — which appears only in this
success response, never in the conflict response. -/
theorem activate_cases (body : ActBody) (ord? : Option Order)
    (item : Option SourceCode) (xff remote reqIp : Option String) (now : Nat)
    (o : Order) (a : Activation) (c : SourceCode) (s r : String) :
    (body.orderCode = none →
      activate body ord? item xff remote reqIp now =
        (ActResp.badRequest, ord?) ∧ ActResp.badRequest.code = 400) ∧
    (jsTruthyNat body.orderCode = true → ord? = none →
      activate body ord? item xff remote reqIp now =
        (ActResp.notFound, none) ∧ ActResp.notFound.code = 404) ∧
    (jsTruthyNat body.orderCode = true → ord? = some o →
      o.status ≠ Status.PAID →
      activate body ord? item xff remote reqIp now =
        (ActResp.notPaid, some o)) ∧
    (jsTruthyNat body.orderCode = true → ord? = some o →
      o.status = Status.PAID → o.activation = some a → a.isActivated = true →
      activate body ord? item xff remote reqIp now =
        (ActResp.conflict a.activatedAt a.deviceId, some o) ∧
      (ActResp.conflict a.activatedAt a.deviceId).code = 409) ∧
    (jsTruthyNat body.orderCode = true → ord? = some o →
      o.status = Status.PAID → (actView o.activation).isActivated = false →
      activate body ord? item xff remote reqIp now =
        (ActResp.ok o.id o.orderCode (jsStrOrNull body.deviceId) now
            (drvOf item),
          some { o with activation := some (Activation.mk true (some now)
            (jsStrOrNull body.deviceId) (some (ipOf xff remote reqIp))) })) ∧
    (xff = some s → s ≠ "" → ipOf xff remote reqIp = s) ∧
    (xff = none → remote = some r → r ≠ "" → ipOf xff remote reqIp = r) ∧
    (item = some c → c.driveLink ≠ "" → drvOf item = some c.driveLink) := by
  refine ⟨?_, ?_, ?_, ?_, ?_, ?_, ?_, ?_⟩
  · intro h; exact ⟨by simp [activate, jsTruthyNat, h], rfl⟩
  · intro ht h; subst h; exact ⟨by simp [activate, ht], rfl⟩
  · intro ht h hs; subst h; simp [activate, ht, hs]
  · intro ht h hs ha hact; subst h
    refine ⟨?_, rfl⟩
    simp [activate, ht, hs, ha, actView, hact]
  · intro ht h hs hact; subst h
    simp [activate, ht, hs, hact]
  · intro hx hs; subst hx; simp [ipOf, jsOrStr, hs]
  · intro hx hr hne; subst hx; subst hr; simp [ipOf, jsOrStr, hne]
  · intro hc hne; subst hc; simp [drvOf, hne]

/-- Concrete instances of `activate_cases`, one per branch of the case
analysis. -/
theorem activate_cases_witness :
    (activate { orderCode := none, deviceId := some "D1" }
        (some { id := 1, buyerName := none, buyerEmail := none, code := 0,
                amount := 5, orderCode := 42, status := Status.PAID,
                paymentLinkId := none, checkoutUrl := none, reference := none,
                paidAt := some 3, activation := some Activation.deflt })
        none none none none 9 =
      (ActResp.badRequest,
        some { id := 1, buyerName := none, buyerEmail := none, code := 0,
               amount := 5, orderCode := 42, status := Status.PAID,
               paymentLinkId := none, checkoutUrl := none, reference := none,
               paidAt := some 3, activation := some Activation.deflt })) ∧
    (activate { orderCode := some 42, deviceId := some "D1" } none none
        none none none 9 = (ActResp.notFound, none)) ∧
    (activate { orderCode := some 42, deviceId := some "D1" }
        (some { id := 1, buyerName := none, buyerEmail := none, code := 0,
                amount := 5, orderCode := 42, status := Status.PENDING,
                paymentLinkId := none, checkoutUrl := none, reference := none,
                paidAt := none, activation := some Activation.deflt })
        none none none none 9 =
      (ActResp.notPaid,
        some { id := 1, buyerName := none, buyerEmail := none, code := 0,
               amount := 5, orderCode := 42, status := Status.PENDING,
               paymentLinkId := none, checkoutUrl := none, reference := none,
               paidAt := none, activation := some Activation.deflt })) ∧
    (activate { orderCode := some 42, deviceId := some "D2" }
        (some { id := 1, buyerName := none, buyerEmail := none, code := 0,
                amount := 5, orderCode := 42, status := Status.PAID,
                paymentLinkId := none, checkoutUrl := none, reference := none,
                paidAt := some 3, activation := some
                  { isActivated := true, activatedAt := some 4,
                    deviceId := some "D1", ip := some "1.2.3.4" } })
        none none none none 9 =
      (ActResp.conflict (some 4) (some "D1"),
        some { id := 1, buyerName := none, buyerEmail := none, code := 0,
               amount := 5, orderCode := 42, status := Status.PAID,
               paymentLinkId := none, checkoutUrl := none, reference := none,
               paidAt := some 3, activation := some
                 { isActivated := true, activatedAt := some 4,
                   deviceId := some "D1", ip := some "1.2.3.4" } })) ∧
    (activate { orderCode := some 42, deviceId := some "D1" }
        (some { id := 1, buyerName := none, buyerEmail := none, code := 7,
                amount := 5, orderCode := 42, status := Status.PAID,
                paymentLinkId := none, checkoutUrl := none, reference := none,
                paidAt := some 3, activation := some Activation.deflt })
        (some { id := 7, title := "t", imageUrl := none, description := none,
                driveLink := "http://drive/x", priceVND := 5 })
        (some "9.9.9.9") (some "8.8.8.8") none 9 =
      (ActResp.ok 1 42 (some "D1") 9 (some "http://drive/x"),
        some { id := 1, buyerName := none, buyerEmail := none, code := 7,
               amount := 5, orderCode := 42, status := Status.PAID,
               paymentLinkId := none, checkoutUrl := none, reference := none,
               paidAt := some 3, activation := some
                 { isActivated := true, activatedAt := some 9,
                   deviceId := some "D1", ip := some "9.9.9.9" } })) ∧
    (ipOf (some "9.9.9.9") (some "8.8.8.8") none = "9.9.9.9") ∧
    (ipOf none (some "8.8.8.8") none = "8.8.8.8") := by
  have h1 := (activate_cases { orderCode := none, deviceId := some "D1" }
      (some { id := 1, buyerName := none, buyerEmail := none, code := 0,
              amount := 5, orderCode := 42, status := Status.PAID,
              paymentLinkId := none, checkoutUrl := none, reference := none,
              paidAt := some 3, activation := some Activation.deflt })
      none none none none 9
      { id := 1, buyerName := none, buyerEmail := none, code := 0,
        amount := 5, orderCode := 42, status := Status.PAID,
        paymentLinkId := none, checkoutUrl := none, reference := none,
        paidAt := some 3, activation := some Activation.deflt }
      Activation.deflt
      { id := 7, title := "t", imageUrl := none, description := none,
        driveLink := "http://drive/x", priceVND := 5 } "" "").1 rfl
  have h2 := (activate_cases { orderCode := some 42, deviceId := some "D1" }
      none none none none none 9
      { id := 1, buyerName := none, buyerEmail := none, code := 0,
        amount := 5, orderCode := 42, status := Status.PAID,
        paymentLinkId := none, checkoutUrl := none, reference := none,
        paidAt := some 3, activation := some Activation.deflt }
      Activation.deflt
      { id := 7, title := "t", imageUrl := none, description := none,
        driveLink := "http://drive/x", priceVND := 5 } "" "").2.1
      (by decide) rfl
  have h3 := (activate_cases { orderCode := some 42, deviceId := some "D1" }
      (some { id := 1, buyerName := none, buyerEmail := none, code := 0,
              amount := 5, orderCode := 42, status := Status.PENDING,
              paymentLinkId := none, checkoutUrl := none, reference := none,
              paidAt := none, activation := some Activation.deflt })
      none none none none 9
      { id := 1, buyerName := none, buyerEmail := none, code := 0,
        amount := 5, orderCode := 42, status := Status.PENDING,
        paymentLinkId := none, checkoutUrl := none, reference := none,
        paidAt := none, activation := some Activation.deflt }
      Activation.deflt
      { id := 7, title := "t", imageUrl := none, description := none,
        driveLink := "http://drive/x", priceVND := 5 } "" "").2.2.1
      (by decide) rfl (by decide)
  have h4 := (activate_cases { orderCode := some 42, deviceId := some "D2" }
      (some { id := 1, buyerName := none, buyerEmail := none, code := 0,
              amount := 5, orderCode := 42, status := Status.PAID,
              paymentLinkId := none, checkoutUrl := none, reference := none,
              paidAt := some 3, activation := some
                { isActivated := true, activatedAt := some 4,
                  deviceId := some "D1", ip := some "1.2.3.4" } })
      none none none none 9
      { id := 1, buyerName := none, buyerEmail := none, code := 0,
        amount := 5, orderCode := 42, status := Status.PAID,
        paymentLinkId := none, checkoutUrl := none, reference := none,
        paidAt := some 3, activation := some
          { isActivated := true, activatedAt := some 4,
            deviceId := some "D1", ip := some "1.2.3.4" } }
      { isActivated := true, activatedAt := some 4,
        deviceId := some "D1", ip := some "1.2.3.4" }
      { id := 7, title := "t", imageUrl := none, description := none,
        driveLink := "http://drive/x", priceVND := 5 } "" "").2.2.2.1
      (by decide) rfl rfl rfl rfl
  have h5 := (activate_cases { orderCode := some 42, deviceId := some "D1" }
      (some { id := 1, buyerName := none, buyerEmail := none, code := 7,
              amount := 5, orderCode := 42, status := Status.PAID,
              paymentLinkId := none, checkoutUrl := none, reference := none,
              paidAt := some 3, activation := some Activation.deflt })
      (some { id := 7, title := "t", imageUrl := none, description := none,
              driveLink := "http://drive/x", priceVND := 5 })
      (some "9.9.9.9") (some "8.8.8.8") none 9
      { id := 1, buyerName := none, buyerEmail := none, code := 7,
        amount := 5, orderCode := 42, status := Status.PAID,
        paymentLinkId := none, checkoutUrl := none, reference := none,
        paidAt := some 3, activation := some Activation.deflt }
      Activation.deflt
      { id := 7, title := "t", imageUrl := none, description := none,
        driveLink := "http://drive/x", priceVND := 5 } "" "").2.2.2.2.1
      (by decide) rfl rfl (by decide)
  have h6 := (activate_cases { orderCode := some 42, deviceId := some "D1" }
      none none (some "9.9.9.9") (some "8.8.8.8") none 9
      { id := 1, buyerName := none, buyerEmail := none, code := 7,
        amount := 5, orderCode := 42, status := Status.PAID,
        paymentLinkId := none, checkoutUrl := none, reference := none,
        paidAt := some 3, activation := some Activation.deflt }
      Activation.deflt
      { id := 7, title := "t", imageUrl := none, description := none,
        driveLink := "http://drive/x", priceVND := 5 }
      "9.9.9.9" "").2.2.2.2.2.1 rfl (by decide)
  have h7 := (activate_cases { orderCode := some 42, deviceId := some "D1" }
      none none none (some "8.8.8.8") none 9
      { id := 1, buyerName := none, buyerEmail := none, code := 7,
        amount := 5, orderCode := 42, status := Status.PAID,
        paymentLinkId := none, checkoutUrl := none, reference := none,
        paidAt := some 3, activation := some Activation.deflt }
      Activation.deflt
      { id := 7, title := "t", imageUrl := none, description := none,
        driveLink := "http://drive/x", priceVND := 5 }
      "" "8.8.8.8").2.2.2.2.2.2.1 rfl rfl (by decide)
  exact ⟨h1.1, h2.1, h3, h4.1, by rw [h5]; decide, h6, h7⟩

/-- `SourceCode.findById` over the catalog, modelled as a list of items. -/
def findCode (cat : List SourceCode) (i : Nat) : Option SourceCode :=
  cat.find? (fun c => c.id == i)

/-- `DELETE /admin/codes/:id` (lines 216-219): `findByIdAndDelete`. -/
def deleteCode (cat : List SourceCode) (i : Nat) : List SourceCode :=
  cat.filter (fun c => c.id != i)

theorem findCode_deleteCode (cat : List SourceCode) (i : Nat) :
    findCode (deleteCode cat i) i = none := by
  simp [findCode, deleteCode, List.find?_eq_none, List.mem_filter]

/-- C10: if the catalog item referenced by a PAID, unactivated order has been
deleted by the admin before activation, `POST /api/activate` still succeeds —
binding the device and setting `isActivated := true` — but the response
carries `driveLink = null` instead of a fulfillment artifact location. -/
theorem activate_after_delete (cat : List SourceCode) (body : ActBody)
    (o : Order) (xff remote reqIp : Option String) (now : Nat)
    (ht : jsTruthyNat body.orderCode = true) (hs : o.status = Status.PAID)
    (ha : (actView o.activation).isActivated = false) :
    findCode (deleteCode cat o.code) o.code = none ∧
    activate body (some o) (findCode (deleteCode cat o.code) o.code)
        xff remote reqIp now =
      (ActResp.ok o.id o.orderCode (jsStrOrNull body.deviceId) now none,
        some { o with activation := some (Activation.mk true (some now)
          (jsStrOrNull body.deviceId) (some (ipOf xff remote reqIp))) }) := by
  have hfind := findCode_deleteCode cat o.code
  refine ⟨hfind, ?_⟩
  rw [hfind]
  simp [activate, ht, hs, ha, drvOf]

/-- A sample catalog item, used in concrete witnesses. -/
def itemX : SourceCode :=
  { id := 7, title := "t", imageUrl := none, description := none,
    driveLink := "http://drive/x", priceVND := 5 }

/-- A sample PAID, unactivated order referencing `itemX`, used in concrete
witnesses. -/
def orderX : Order :=
  { id := 1, buyerName := none, buyerEmail := none, code := 7,
    amount := 5, orderCode := 42, status := Status.PAID,
    paymentLinkId := none, checkoutUrl := none, reference := none,
    paidAt := some 3, activation := some Activation.deflt }

/-- Concrete instance of `activate_after_delete`: the order references
catalog item 7, item 7 is deleted, activation still succeeds with a null
drive link. -/
theorem activate_after_delete_witness :
    findCode (deleteCode [itemX] 7) 7 = none ∧
    activate { orderCode := some 42, deviceId := some "D1" }
        (some orderX) (findCode (deleteCode [itemX] 7) 7)
        none (some "8.8.8.8") none 9 =
      (ActResp.ok 1 42 (some "D1") 9 none,
        some { orderX with activation := some (Activation.mk true
          (some 9) (some "D1") (some "8.8.8.8")) }) :=
  activate_after_delete [itemX]
    { orderCode := some 42, deviceId := some "D1" } orderX
    none (some "8.8.8.8") none 9 (by decide) rfl (by decide)

/-- Request body of `POST /api/validate`:
`const { orderCode, deviceId } = req.body || {}`. -/
structure ValBody where
  orderCode : Option Nat
  deviceId : Option String
deriving DecidableEq, Repr

/-- Responses of `POST /api/validate`. -/
inductive ValResp where
  | badRequest
  | notFound
  | notPaid
  | notActivated
  | deviceMismatch
  | ok
deriving DecidableEq, Repr

/-- HTTP status code attached to each validate response by the handler. -/
def ValResp.code : ValResp → Nat
  | ValResp.badRequest => 400
  | ValResp.notFound => 404
  | ValResp.notPaid => 400
  | ValResp.notActivated => 403
  | ValResp.deviceMismatch => 409
  | ValResp.ok => 200

/-- `POST /api/validate` (server file, lines 326-364).  `ord?` is the result
of `Order.findOne({ orderCode })`.  The handler never saves, so the returned
order state is whatever was looked up. -/
def validate (body : ValBody) (ord? : Option Order) :
    ValResp × Option Order :=
  if ¬ (jsTruthyNat body.orderCode && jsTruthyStr body.deviceId) then
    (ValResp.badRequest, ord?)
  else
    match ord? with
    | none => (ValResp.notFound, none)
    | some o =>
      if o.status ≠ Status.PAID then (ValResp.notPaid, some o)
      else if ¬ (actView o.activation).isActivated then
        (ValResp.notActivated, some o)
      else if jsTruthyStr (actView o.activation).deviceId ∧
          (actView o.activation).deviceId ≠ body.deviceId then
        (ValResp.deviceMismatch, some o)
      else (ValResp.ok, some o)

/-- C4: case analysis of `POST /api/validate`.  A missing field yields
BadRequest (400); an unknown `orderCode` yields NotFound (404); a non-PAID
order yields NotPaid; an unactivated order yields NotActivated (403); a
bound, non-null device differing from the supplied one yields DeviceMismatch
(409); otherwise the call succeeds — in particular a null/falsy bound
deviceId skips the mismatch check, so any supplied deviceId validates. -/
theorem validate_cases (body : ValBody) (ord? : Option Order) (o : Order)
    (d : String) :
    (body.orderCode = none ∨ body.deviceId = none →
      validate body ord? = (ValResp.badRequest, ord?) ∧
      ValResp.badRequest.code = 400) ∧
    (jsTruthyNat body.orderCode = true → jsTruthyStr body.deviceId = true →
      ord? = none →
      validate body ord? = (ValResp.notFound, none) ∧
      ValResp.notFound.code = 404) ∧
    (jsTruthyNat body.orderCode = true → jsTruthyStr body.deviceId = true →
      ord? = some o → o.status ≠ Status.PAID →
      validate body ord? = (ValResp.notPaid, some o)) ∧
    (jsTruthyNat body.orderCode = true → jsTruthyStr body.deviceId = true →
      ord? = some o → o.status = Status.PAID →
      (actView o.activation).isActivated = false →
      validate body ord? = (ValResp.notActivated, some o) ∧
      ValResp.notActivated.code = 403) ∧
    (jsTruthyNat body.orderCode = true → jsTruthyStr body.deviceId = true →
      ord? = some o → o.status = Status.PAID →
      (actView o.activation).isActivated = true →
      (actView o.activation).deviceId = some d → d ≠ "" →
      some d ≠ body.deviceId →
      validate body ord? = (ValResp.deviceMismatch, some o) ∧
      ValResp.deviceMismatch.code = 409) ∧
    (jsTruthyNat body.orderCode = true → jsTruthyStr body.deviceId = true →
      ord? = some o → o.status = Status.PAID →
      (actView o.activation).isActivated = true →
      (actView o.activation).deviceId = none →
      validate body ord? = (ValResp.ok, some o)) ∧
    (jsTruthyNat body.orderCode = true → jsTruthyStr body.deviceId = true →
      ord? = some o → o.status = Status.PAID →
      (actView o.activation).isActivated = true →
      (actView o.activation).deviceId = body.deviceId →
      validate body ord? = (ValResp.ok, some o)) := by
  refine ⟨?_, ?_, ?_, ?_, ?_, ?_, ?_⟩
  · rintro (h | h) <;>
      exact ⟨by simp [validate, jsTruthyNat, jsTruthyStr, h], rfl⟩
  · intro h1 h2 h3; subst h3
    exact ⟨by simp [validate, h1, h2], rfl⟩
  · intro h1 h2 h3 h4; subst h3
    simp [validate, h1, h2, h4]
  · intro h1 h2 h3 h4 h5; subst h3
    exact ⟨by simp [validate, h1, h2, h4, h5], rfl⟩
  · intro h1 h2 h3 h4 h5 h6 h7 h8; subst h3
    refine ⟨?_, rfl⟩
    have hd : jsTruthyStr (some d) = true := by simp [jsTruthyStr, h7]
    simp [validate, h1, h2, h4, h5, h6, hd, h8]
  · intro h1 h2 h3 h4 h5 h6; subst h3
    have hn : jsTruthyStr (none : Option String) = false := rfl
    simp [validate, h1, h2, h4, h5, h6, hn]
  · intro h1 h2 h3 h4 h5 h6; subst h3
    simp [validate, h1, h2, h4, h5, h6]

/-- A sample activated order bound to device `"D1"`, used in witnesses. -/
def orderAct : Order :=
  { orderX with activation := some (Activation.mk true (some 4)
      (some "D1") (some "1.2.3.4")) }

/-- A sample activated order with a null bound device, used in witnesses. -/
def orderActNullDev : Order :=
  { orderX with activation := some (Activation.mk true (some 4)
      none (some "1.2.3.4")) }

/-- Concrete instances of `validate_cases`, one per branch. -/
theorem validate_cases_witness :
    (validate { orderCode := some 42, deviceId := none } (some orderX) =
      (ValResp.badRequest, some orderX)) ∧
    (validate { orderCode := some 42, deviceId := some "D1" } none =
      (ValResp.notFound, none)) ∧
    (validate { orderCode := some 42, deviceId := some "D1" }
        (some { orderX with status := Status.PENDING }) =
      (ValResp.notPaid, some { orderX with status := Status.PENDING })) ∧
    (validate { orderCode := some 42, deviceId := some "D1" } (some orderX) =
      (ValResp.notActivated, some orderX)) ∧
    (validate { orderCode := some 42, deviceId := some "D2" }
        (some orderAct) = (ValResp.deviceMismatch, some orderAct)) ∧
    (validate { orderCode := some 42, deviceId := some "D9" }
        (some orderActNullDev) = (ValResp.ok, some orderActNullDev)) ∧
    (validate { orderCode := some 42, deviceId := some "D1" }
        (some orderAct) = (ValResp.ok, some orderAct)) := by
  refine ⟨?_, ?_, ?_, ?_, ?_, ?_, ?_⟩
  · exact ((validate_cases { orderCode := some 42, deviceId := none }
      (some orderX) orderX "D1").1 (Or.inr rfl)).1
  · exact ((validate_cases { orderCode := some 42, deviceId := some "D1" }
      none orderX "D1").2.1 (by decide) (by decide) rfl).1
  · exact (validate_cases { orderCode := some 42, deviceId := some "D1" }
      (some { orderX with status := Status.PENDING })
      { orderX with status := Status.PENDING } "D1").2.2.1
      (by decide) (by decide) rfl (by decide)
  · exact ((validate_cases { orderCode := some 42, deviceId := some "D1" }
      (some orderX) orderX "D1").2.2.2.1 (by decide) (by decide) rfl rfl
      (by decide)).1
  · exact ((validate_cases { orderCode := some 42, deviceId := some "D2" }
      (some orderAct) orderAct "D1").2.2.2.2.1 (by decide) (by decide) rfl
      rfl (by decide) (by decide) (by decide) (by decide)).1
  · exact (validate_cases { orderCode := some 42, deviceId := some "D9" }
      (some orderActNullDev) orderActNullDev "D1").2.2.2.2.2.1
      (by decide) (by decide) rfl rfl (by decide) (by decide)
  · exact (validate_cases { orderCode := some 42, deviceId := some "D1" }
      (some orderAct) orderAct "D1").2.2.2.2.2.2
      (by decide) (by decide) rfl rfl (by decide) (by decide)

/-- C6: Validate is side-effect-free — for every input and every outcome it
leaves the looked-up order record (status, `paidAt`, and the entire
activation sub-record) exactly as it was. -/
theorem validate_no_mutation (body : ValBody) (ord? : Option Order) :
    (validate body ord?).2 = ord? := by
  unfold validate
  split
  · rfl
  · cases ord? with
    | none => rfl
    | some o =>
      simp only
      split
      · rfl
      · split
        · rfl
        · split <;> rfl

/-- `POST /admin/activations/:id/reset` (server file, lines 247-252):
`findByIdAndUpdate` replacing the activation sub-record with the explicit
object `{ isActivated: false, activatedAt: null, deviceId: null, ip: null }`;
a missing order is silently ignored. -/
def resetUI (ord? : Option Order) : Option Order :=
  ord?.map fun o =>
    { o with activation := some (Activation.mk false none none none) }

/-- Responses of `POST /api/admin/reset-activation`. -/
inductive ResetResp where
  | unauthorized
  | badRequest
  | ok
deriving DecidableEq, Repr

/-- `POST /api/admin/reset-activation` (server file, lines 314-325): checks
the `x-admin-secret` header against the configured secret (401 on mismatch),
requires a truthy `orderCode` (400 otherwise), then runs
`updateOne({ orderCode }, { $set: { activation: null } })` — a silent no-op
when no order matches — and answers `{ ok: true }`. -/
def resetAPI (secretHdr : Option String) (adminSecret : String)
    (oc : Option Nat) (ord? : Option Order) : ResetResp × Option Order :=
  if secretHdr ≠ some adminSecret then (ResetResp.unauthorized, ord?)
  else if ¬ jsTruthyNat oc then (ResetResp.badRequest, ord?)
  else (ResetResp.ok, ord?.map fun o => { o with activation := none })

/-- C9: both reset routes unconditionally clear the activation sub-record —
regardless of the order's current state — to a state that reads as the
default through optional chaining (`isActivated = false`, no deviceId, no
ip, no activatedAt); an authorized API reset with an `orderCode` has no
further error condition; and after either reset a subsequent Activate on
the (PAID) order succeeds again rather than observing AlreadyActivated. -/
theorem reset_clears_activation (o : Order) (secretHdr : Option String)
    (adminSecret : String) (oc : Option Nat) (body : ActBody)
    (item : Option SourceCode) (xff remote reqIp : Option String)
    (now : Nat) :
    (resetUI (some o) =
      some { o with activation := some (Activation.mk false none none none) }
      ∧ Activation.mk false none none none = Activation.deflt) ∧
    (secretHdr = some adminSecret → jsTruthyNat oc = true →
      resetAPI secretHdr adminSecret oc (some o) =
        (ResetResp.ok, some { o with activation := none }) ∧
      actView none = Activation.deflt) ∧
    (jsTruthyNat body.orderCode = true → o.status = Status.PAID →
      activate body (resetUI (some o)) item xff remote reqIp now =
        (ActResp.ok o.id o.orderCode (jsStrOrNull body.deviceId) now
            (drvOf item),
          some { o with activation := some (Activation.mk true (some now)
            (jsStrOrNull body.deviceId) (some (ipOf xff remote reqIp))) })) ∧
    (jsTruthyNat body.orderCode = true → o.status = Status.PAID →
      activate body (some { o with activation := none }) item xff remote
          reqIp now =
        (ActResp.ok o.id o.orderCode (jsStrOrNull body.deviceId) now
            (drvOf item),
          some { o with activation := some (Activation.mk true (some now)
            (jsStrOrNull body.deviceId) (some (ipOf xff remote reqIp))) })) := by
  refine ⟨⟨rfl, rfl⟩, ?_, ?_, ?_⟩
  · intro hsec htc
    subst hsec
    exact ⟨by simp [resetAPI, htc], rfl⟩
  · intro ht hs
    simp [resetUI, activate, ht, hs, actView, Activation.deflt]
  · intro ht hs
    simp [activate, ht, hs, actView, Activation.deflt]

/-- `orderAct` with its activation cleared through the admin UI route. -/
def orderActCleared : Order :=
  { orderAct with activation := some (Activation.mk false none none none) }

/-- `orderAct` re-activated at time 9 for device `"D2"`. -/
def orderActD2 : Order :=
  { orderAct with
    activation := some (Activation.mk true (some 9) (some "D2") (some "8.8.8.8")) }

/-- Concrete instance of `reset_clears_activation`: resetting the activated
order `orderAct` clears it, and activating again afterwards succeeds. -/
theorem reset_clears_activation_witness :
    (resetUI (some orderAct) = some orderActCleared ∧
      Activation.mk false none none none = Activation.deflt) ∧
    (resetAPI (some "sec") "sec" (some 42) (some orderAct) =
        (ResetResp.ok, some { orderAct with activation := none }) ∧
      actView none = Activation.deflt) ∧
    (activate { orderCode := some 42, deviceId := some "D2" }
        (resetUI (some orderAct)) (some itemX) none (some "8.8.8.8") none 9 =
      (ActResp.ok 1 42 (some "D2") 9 (some "http://drive/x"),
        some orderActD2)) ∧
    (activate { orderCode := some 42, deviceId := some "D2" }
        (some { orderAct with activation := none }) (some itemX)
        none (some "8.8.8.8") none 9 =
      (ActResp.ok 1 42 (some "D2") 9 (some "http://drive/x"),
        some orderActD2)) := by
  have h := reset_clears_activation orderAct (some "sec") "sec" (some 42)
    { orderCode := some 42, deviceId := some "D2" } (some itemX)
    none (some "8.8.8.8") none 9
  refine ⟨⟨by rw [h.1.1]; decide, h.1.2⟩, h.2.1 rfl (by decide), ?_, ?_⟩
  · have h3 := h.2.2.1 (by decide) rfl
    rw [h3]; decide
  · have h4 := h.2.2.2 (by decide) rfl
    rw [h4]; decide

/-- C7 as stated fails on the code: `orderX` is already PAID with
`paidAt = some 3`, yet an admin mark-paid at time 9 overwrites `paidAt` to
`some 9`, and a replayed verified return-trip request at time 9 does the
same — `paidAt` is not write-once. -/
theorem paidAt_overwritten_cex :
    orderX.status = Status.PAID ∧ orderX.paidAt = some 3 ∧
    markPaid (some orderX) 9 = some { orderX with paidAt := some 9 } ∧
    (successHandler (fun m => Except.ok ("h:" ++ m)) (some orderX)
        { status := some "PAID", orderCode := some "42",
          sig := some "h:42:PAID" } 9).2 =
      some { orderX with paidAt := some 9 } := by
  refine ⟨rfl, rfl, by decide, by decide⟩

/-- C7 amended: the first transition to PAID stamps `paidAt`, but the stamp
is not write-once — every verified PAID return trip and every admin
mark-paid action overwrites `paidAt` with the current time (an unverified
return trip leaves it unchanged). -/
theorem paidAt_stamped_every_time (hmacE : String → Except Unit String)
    (o : Order) (q : SuccessQuery) (now now' : Nat) (e : String)
    (he : hmacE (sigMessage o q.status) = Except.ok e)
    (hs : q.status = some "PAID") (hg : q.sig = some e) :
    (successHandler hmacE (some o) q now).2 =
      some { o with status := Status.PAID, paidAt := some now } ∧
    markPaid (some o) now' =
      some { o with status := Status.PAID, paidAt := some now' } := by
  constructor
  · have he2 : hmacE (sigMessage o (some "PAID")) = Except.ok e := by
      rw [← hs]; exact he
    simp [successHandler, he2, hs, hg]
  · rfl

/-- Concrete instance of `paidAt_stamped_every_time`: the replayed verified
return trip restamps `orderX.paidAt` from 3 to 9, mark-paid to 11. -/
theorem paidAt_stamped_every_time_witness :
    (successHandler (fun m => Except.ok ("h:" ++ m)) (some orderX)
        { status := some "PAID", orderCode := some "42",
          sig := some "h:42:PAID" } 9).2 =
      some { orderX with status := Status.PAID, paidAt := some 9 } ∧
    markPaid (some orderX) 11 =
      some { orderX with status := Status.PAID, paidAt := some 11 } :=
  paidAt_stamped_every_time (fun m => Except.ok ("h:" ++ m)) orderX
    { status := some "PAID", orderCode := some "42",
      sig := some "h:42:PAID" } 9 11 "h:42:PAID" (by rfl) rfl rfl

/-- Two concurrent `POST /api/activate` calls on the same order under the
schedule read-A, read-B, write-A, write-B.  The handler is a separate
read-then-write (`findOne` … assign … `save`), with no conditional update
and no version check on the `activation` path, so each call computes its
response and its write from the snapshot it read; with both reads before
either write, both calls see the snapshot `o0` and the second save
overwrites the first (last-writer-wins on `activation`). -/
def twoActivates (o0 : Order) (bA bB : ActBody) (item : Option SourceCode)
    (now : Nat) : ActResp × ActResp × Option Order :=
  let rA := activate bA (some o0) item none none none now
  let rB := activate bB (some o0) item none none none now
  (rA.1, rB.1, rB.2)

/-- C5 fails on the code: on the never-before-activated PAID order `orderX`,
two interleaved Activate calls for devices `"D1"` and `"D2"` BOTH succeed —
neither observes AlreadyActivated — and the final persisted binding is the
second writer's `"D2"`.  The read-modify-write is not serialized by an
atomic conditional update. -/
theorem concurrent_activate_both_succeed :
    twoActivates orderX { orderCode := some 42, deviceId := some "D1" }
        { orderCode := some 42, deviceId := some "D2" } (some itemX) 9 =
      (ActResp.ok 1 42 (some "D1") 9 (some "http://drive/x"),
        ActResp.ok 1 42 (some "D2") 9 (some "http://drive/x"),
        some { orderX with
          activation := some (Activation.mk true (some 9) (some "D2") (some "")) }) := by
  decide

/-- One request against a single order, carrying all request data (the HMAC
function, query/body fields, headers and the clock). -/
inductive Op where
  | returnTrip (hmacE : String → Except Unit String) (q : SuccessQuery)
      (now : Nat)
  | adminMarkPaid (now : Nat)
  | apiActivate (body : ActBody) (item : Option SourceCode)
      (xff remote reqIp : Option String) (now : Nat)
  | apiValidate (body : ValBody)
  | adminReset
  | apiReset (secretHdr : Option String) (adminSecret : String)
      (oc : Option Nat)

/-- The persisted state of one order after one request: each handler is
applied with this order as its database lookup result. -/
def stepOrder (o : Order) : Op → Order
  | Op.returnTrip hmacE q now =>
      ((successHandler hmacE (some o) q now).2).getD o
  | Op.adminMarkPaid now => (markPaid (some o) now).getD o
  | Op.apiActivate body item xff remote reqIp now =>
      ((activate body (some o) item xff remote reqIp now).2).getD o
  | Op.apiValidate body => ((validate body (some o)).2).getD o
  | Op.adminReset => (resetUI (some o)).getD o
  | Op.apiReset h s oc => ((resetAPI h s oc (some o)).2).getD o

/-- `POST /order` (server file, lines 74-124): a freshly created order is
PENDING with the default activation sub-record; the follow-up save only adds
`paymentLinkId` and `checkoutUrl`. -/
def createOrder (oid : Nat) (name email : Option String)
    (codeRef amount orderCode : Nat) (pl cu : Option String) : Order :=
  { id := oid, buyerName := name, buyerEmail := email, code := codeRef,
    amount := amount, orderCode := orderCode, status := Status.PENDING,
    paymentLinkId := pl, checkoutUrl := cu, reference := none,
    paidAt := none, activation := some Activation.deflt }

/-- The invariant of C8: an order that reads as activated is PAID. -/
def ActImpliesPaid (o : Order) : Prop :=
  (actView o.activation).isActivated = true → o.status = Status.PAID

theorem stepOrder_preserves (o : Order) (op : Op) (h : ActImpliesPaid o) :
    ActImpliesPaid (stepOrder o op) := by
  cases op with
  | returnTrip hmacE q now =>
    simp only [stepOrder, successHandler]
    cases hE : hmacE (sigMessage o q.status) with
    | error e => simpa using h
    | ok ex =>
      by_cases hc : q.status = some "PAID" ∧ q.sig = some ex
      · simp [hc, ActImpliesPaid]
      · simpa [hc] using h
  | adminMarkPaid now => intro _; rfl
  | apiActivate body item xff remote reqIp now =>
    simp only [stepOrder]
    unfold activate
    by_cases h1 : jsTruthyNat body.orderCode = true
    · by_cases h2 : o.status = Status.PAID
      · by_cases h3 : (actView o.activation).isActivated = true
        · simpa [h1, h2, h3] using h
        · simp [h1, h2, h3, ActImpliesPaid]
      · simpa [h1, h2] using h
    · simpa [h1] using h
  | apiValidate body =>
    have hv : (validate body (some o)).2 = some o := by
      unfold validate
      split
      · rfl
      · simp only
        split
        · rfl
        · split
          · rfl
          · split <;> rfl
    simpa [stepOrder, hv] using h
  | adminReset => simp [stepOrder, resetUI, ActImpliesPaid, actView]
  | apiReset hd s oc =>
    simp only [stepOrder]
    unfold resetAPI
    by_cases h1 : hd = some s
    · by_cases h2 : jsTruthyNat oc = true
      · simp [h1, h2, ActImpliesPaid, actView, Activation.deflt]
      · simpa [h1, h2] using h
    · simpa [h1] using h

theorem foldl_stepOrder_preserves (ops : List Op) (o : Order)
    (h : ActImpliesPaid o) : ActImpliesPaid (ops.foldl stepOrder o) := by
  induction ops generalizing o with
  | nil => exact h
  | cons op t ih => exact ih (stepOrder o op) (stepOrder_preserves o op h)

/-- C8: every order reachable from creation through any sequence of
return-trip, admin mark-paid, activate, validate, and reset requests
satisfies `isActivated = true → status = PAID`: no sequence of these
operations produces an order that is activated while not PAID. -/
theorem reachable_activated_implies_paid (ops : List Op) (oid : Nat)
    (name email : Option String) (codeRef amount orderCode : Nat)
    (pl cu : Option String) :
    ActImpliesPaid
      (ops.foldl stepOrder
        (createOrder oid name email codeRef amount orderCode pl cu)) :=
  foldl_stepOrder_preserves ops _
    (by intro hx; simp [createOrder, actView, Activation.deflt] at hx)

/-- Concrete instance of `reachable_activated_implies_paid` on the sequence
mark-paid then activate. -/
theorem reachable_activated_implies_paid_witness :
    ActImpliesPaid
      (List.foldl stepOrder (createOrder 1 none none 7 5 42 none none)
        [Op.adminMarkPaid 5,
         Op.apiActivate { orderCode := some 42, deviceId := some "D1" }
           (some itemX) none none none 6]) :=
  reachable_activated_implies_paid
    [Op.adminMarkPaid 5,
     Op.apiActivate { orderCode := some 42, deviceId := some "D1" }
       (some itemX) none none none 6] 1 none none 7 5 42 none none
